import Mathlib

/-!
Shallow embedding of the proactive-messaging scheduling core of the buppy
repository, and proofs checking the natural-language specification against it.

Source files embedded:
* `utils/proactive_messaging_utils.py` (`should_reschedule`,
  `calculate_next_schedule_time`)
* `config/settings/proactive_messaging_settings.py`
  (`ProactiveMessagingSettings`, `check_required_fields`, `parse_last_scheduled`)
* `event_handlers/proactive_event_handler.py` and
  `celery_tasks/proactive_messaging_task.py` (the scheduling transaction,
  the worker task, `update_task_in_firestore`, `get_current_task_id`,
  `cancel_current_proactive_message_task`, `revoke_existing_tasks`)
* `firestore_managers/proactive_messaging_manager.py`
  (`update_proactive_messaging_settings`, same transaction body)

Modelling conventions:
* Python `float` values that carry quantities (intervals, temperatures,
  times) become `ℚ`; time is measured in days from an arbitrary epoch, so
  `timedelta(days = x)` is addition of `x`.
* `random.random()` is an explicit parameter `u` with `0 ≤ u < 1`.
* Python `None` becomes `Option.none`; functions that `raise` return
  `Except String` or `Option`.
* Firestore documents are records; a partial `update` call is a list of
  `(field path, FieldUpdate)` pairs, where `FieldUpdate` distinguishes
  setting a value from `firestore.DELETE_FIELD`.
* Side effects on the task queue (enqueue / `celery_app.control.revoke`)
  are collected in lists, in call order.
-/

namespace Buppy

/-- A Python `datetime` restricted to what the code manipulates: a
timezone-aware timestamp with a UTC offset of whole minutes (every offset
`pytz`/`zoneinfo` produce in practice; `pytz.utc` has offset 0).  Fields are
as in CPython's `datetime`. -/
structure PyDateTime where
  year : Nat
  month : Nat
  day : Nat
  hour : Nat
  minute : Nat
  second : Nat
  microsecond : Nat
  /-- `utcoffset()` in minutes; aware datetimes only. -/
  offsetMinutes : Int
deriving DecidableEq, Repr

/-- The field ranges CPython's `datetime` constructor enforces (day upper
bound relaxed to 31; the month-specific bound only shrinks the set of valid
inputs, so every theorem below also covers the exact set).  `timezone`
requires `|offset| < 24` hours. -/
def PyDateTime.valid (d : PyDateTime) : Prop :=
  1 ≤ d.year ∧ d.year ≤ 9999 ∧ 1 ≤ d.month ∧ d.month ≤ 12 ∧
  1 ≤ d.day ∧ d.day ≤ 31 ∧ d.hour ≤ 23 ∧ d.minute ≤ 59 ∧
  d.second ≤ 59 ∧ d.microsecond ≤ 999999 ∧ d.offsetMinutes.natAbs ≤ 1439

instance (d : PyDateTime) : Decidable d.valid := by
  unfold PyDateTime.valid; infer_instance

/-- `config/settings/proactive_messaging_settings.py`, class
`ProactiveMessagingSettings` (a pydantic `BaseModel`): field-for-field, with
the model's defaults. -/
structure ProactiveMessagingSettings where
  enabled : Bool := false
  interval_days : Option ℚ := none
  system_prompt : Option String := none
  slack_channel : Option String := none
  temperature : ℚ := 1
  current_task_id : Option String := none
  last_scheduled : Option PyDateTime := none
deriving DecidableEq, Repr

/-- `check_required_fields` (the `@root_validator` of
`ProactiveMessagingSettings`): when `enabled` is true, each field in
`["interval_days", "system_prompt", "slack_channel"]` is checked, in order,
to be present and not `None`; the first missing one raises `ValueError`.
No other condition is checked. -/
def check_required_fields (s : ProactiveMessagingSettings) :
    Except String ProactiveMessagingSettings :=
  if s.enabled then
    if s.interval_days = none then
      .error "interval_days is required when enabled is True"
    else if s.system_prompt = none then
      .error "system_prompt is required when enabled is True"
    else if s.slack_channel = none then
      .error "slack_channel is required when enabled is True"
    else .ok s
  else .ok s

/-- `utils/proactive_messaging_utils.py`, `should_reschedule`: returns
`old_settings.interval_days != new_settings.interval_days` (Python `!=` on
`Optional[float]`; `None != None` is `False`). -/
def should_reschedule (old_settings new_settings : ProactiveMessagingSettings) :
    Bool :=
  decide (old_settings.interval_days ≠ new_settings.interval_days)

/-- `utils/proactive_messaging_utils.py`, `calculate_next_schedule_time`:
raises `ValueError` when `settings.interval_days is None`, otherwise returns
`now_utc + timedelta(days = interval_days * random.random() * 2)`.
`now` is the value of `datetime.now(pytz.utc)` (in days) and `u` the draw of
`random.random()`. -/
def calculate_next_schedule_time (settings : ProactiveMessagingSettings)
    (now u : ℚ) : Except String ℚ :=
  match settings.interval_days with
  | none => .error "interval_days must be set for proactive messaging."
  | some interval_days => .ok (now + interval_days * u * 2)

end Buppy

namespace Buppy

/-- C4: sample settings used by witnesses. -/
def sampleSettings : ProactiveMessagingSettings :=
  { enabled := true, interval_days := some 1, system_prompt := some "p",
    slack_channel := some "c" }

/-- **C4** — For every `interval_days > 0`, every current time `now` and
every random draw `u ∈ [0, 1)`, `calculate_next_schedule_time` succeeds and
returns `t = now + interval_days * u * 2` (days), which satisfies
`now ≤ t ≤ now + 2 * interval_days`. -/
theorem calculate_next_schedule_time_bounds
    (s : ProactiveMessagingSettings) (d now u : ℚ)
    (hd : s.interval_days = some d) (hdpos : 0 < d)
    (hu0 : 0 ≤ u) (hu1 : u < 1) :
    calculate_next_schedule_time s now u = .ok (now + d * u * 2) ∧
    now ≤ now + d * u * 2 ∧ now + d * u * 2 ≤ now + 2 * d := by
  refine ⟨by simp [calculate_next_schedule_time, hd], ?_, ?_⟩
  · nlinarith
  · nlinarith

/-- Witness for C4 at `interval_days = 1`, `now = 5`, `u = 1/2`. -/
theorem calculate_next_schedule_time_bounds_witness :
    calculate_next_schedule_time sampleSettings 5 (1/2) = .ok (5 + 1 * (1/2) * 2) ∧
    (5 : ℚ) ≤ 5 + 1 * (1/2) * 2 ∧ (5 : ℚ) + 1 * (1/2) * 2 ≤ 5 + 2 * 1 := by
  exact calculate_next_schedule_time_bounds sampleSettings 1 5 (1/2)
    (by decide) (by norm_num) (by norm_num) (by norm_num)

/-- C5 counterexample input: settings with `interval_days = 0`. -/
def zeroIntervalSettings : ProactiveMessagingSettings :=
  { enabled := true, interval_days := some 0, system_prompt := some "p",
    slack_channel := some "c" }

/-- **C5, counterexample** — the claim says computing the next fire time with
`interval_days = 0` fails; in the code it succeeds and returns `now`
(here `now = 7`, `u = 1/2`). -/
theorem calculate_next_schedule_time_zero_ok :
    calculate_next_schedule_time zeroIntervalSettings 7 (1/2) = .ok 7 := by
  simp [calculate_next_schedule_time, zeroIntervalSettings]

/-- **C5, amended** — `calculate_next_schedule_time` fails (with the
`ValueError` message about `interval_days`) exactly when `interval_days` is
absent (`None`); zero and negative intervals are accepted, returning
`now + interval_days * u * 2`. -/
theorem calculate_next_schedule_time_error_iff
    (s : ProactiveMessagingSettings) (now u : ℚ) :
    (∃ m, calculate_next_schedule_time s now u = .error m) ↔
      s.interval_days = none := by
  cases h : s.interval_days <;>
    simp [calculate_next_schedule_time, h]

/-- **C6** — `should_reschedule old new` is true iff the two
`interval_days` differ; in particular it is false whenever the intervals
agree (so changes to `system_prompt`, `slack_channel`, `temperature`,
`current_task_id` or `last_scheduled` alone never trigger), and comparing
two absent (`None`) intervals yields false. -/
theorem should_reschedule_iff_interval_changed
    (old_settings new_settings : ProactiveMessagingSettings) :
    (should_reschedule old_settings new_settings = true ↔
      old_settings.interval_days ≠ new_settings.interval_days) ∧
    (old_settings.interval_days = new_settings.interval_days →
      should_reschedule old_settings new_settings = false) ∧
    (old_settings.interval_days = none → new_settings.interval_days = none →
      should_reschedule old_settings new_settings = false) := by
  refine ⟨by simp [should_reschedule], ?_, ?_⟩
  · intro h; simp [should_reschedule, h]
  · intro h1 h2; simp [should_reschedule, h1, h2]

/-- Witness for C6: settings differing only in `system_prompt` (intervals
both `some 1`) do not trigger a reschedule, and the iff holds there. -/
theorem should_reschedule_iff_interval_changed_witness :
    should_reschedule sampleSettings { sampleSettings with system_prompt := some "q" }
      = false :=
  (should_reschedule_iff_interval_changed sampleSettings
    { sampleSettings with system_prompt := some "q" }).2.1 rfl

/-- C9 counterexample input: enabled, all three required fields present,
but `interval_days = 0`. -/
theorem check_required_fields_zero_interval_accepted :
    check_required_fields zeroIntervalSettings = .ok zeroIntervalSettings := by
  simp [check_required_fields, zeroIntervalSettings]

/-! ## The ledger, the scheduling transaction, the worker -/

/-- One entry of the `update_data` dict passed to `bot_ref.update`: either a
value to set or the `firestore.DELETE_FIELD` sentinel, which removes the
field entirely. -/
inductive FieldUpdate
  | setVal (v : String)
  | deleteField
deriving DecidableEq, Repr

/-- The nested `proactive_messaging` map of a bot document, restricted to
the two ledger fields the scheduling code touches.  `last_scheduled` is
stored as the ISO string `eta.isoformat()` produces. -/
structure ProactiveFields where
  current_task_id : Option String := none
  last_scheduled : Option String := none
deriving DecidableEq, Repr

/-- A bot document as `DocumentSnapshot.to_dict()` exposes it: the ledger
lives in the nested map under the top-level key `"proactive_messaging"`.
`top_current_task_id` models a value at the *top-level* key
`"current_task_id"` — a key that no write of this codebase ever sets (all
writes target `"proactive_messaging.current_task_id"`), but which
`execute_proactive_messaging_update` reads via
`bot_doc.get("current_task_id", None)`. -/
structure BotDoc where
  top_current_task_id : Option String := none
  proactive : ProactiveFields := {}
deriving DecidableEq, Repr

/-- `revoke_existing_tasks` (`event_handlers/proactive_event_handler.py` and
`firestore_managers/proactive_messaging_manager.py`): `if task_id:` —
Python truthiness, so `None` and the empty string are skipped — then
`celery_app.control.revoke(task_id)`.  Returns the revoke calls made. -/
def revoke_existing_tasks : Option String → List String
  | none => []
  | some task_id => if task_id = "" then [] else [task_id]

/-- Everything observable about one run of the scheduling transaction:
the document as left behind, whether the exception propagated to the
caller (`raise e`), and the task-queue calls in order. -/
structure UpdateRun where
  doc : BotDoc
  raised : Bool
  enqueued : List String
  revoked : List String
deriving DecidableEq, Repr

/-- `execute_proactive_messaging_update`
(`event_handlers/proactive_event_handler.py`; the transaction body of
`update_proactive_messaging_settings` in
`firestore_managers/proactive_messaging_manager.py` is the same protocol):

1. `current_task_id = bot_doc.get("current_task_id", None)` — note: the
   *top-level* key, not `"proactive_messaging.current_task_id"`;
2. compute the next schedule time and `apply_async` a new task, whose
   fresh queue-issued id is the parameter `newTaskId`;
3. `try`: `transaction.update(bot_ref, {"proactive_messaging.current_task_id": task.id})`
   — `writeRaises` says whether this ledger write step raises;
4. `except`: `celery_app.control.revoke(task.id)` then `raise e`;
5. `finally`: `revoke_existing_tasks(celery_app, current_task_id)`.

On a raise the transaction does not commit, so the document is unchanged. -/
def execute_proactive_messaging_update (doc : BotDoc) (newTaskId : String)
    (writeRaises : Bool) : UpdateRun :=
  let current_task_id := doc.top_current_task_id
  if writeRaises then
    { doc := doc
      raised := true
      enqueued := [newTaskId]
      revoked := [newTaskId] ++ revoke_existing_tasks current_task_id }
  else
    { doc := { doc with
                proactive := { doc.proactive with
                                current_task_id := some newTaskId } }
      raised := false
      enqueued := [newTaskId]
      revoked := revoke_existing_tasks current_task_id }

/-- **C1, code bug** — failing input: a bot document whose ledger field
`proactive_messaging.current_task_id` is `"T_old"` (exactly the state a
previous successful run leaves behind), a fresh task id `"T_new"`, and a
ledger write that succeeds.  The run ends with the ledger pointing at
`"T_new"` as the claim says, but issues *no* revoke call at all —
`revoke("T_old")` is never made, because the code reads the predecessor
from the top-level key `"current_task_id"`, which is never written. -/
theorem execute_update_orphans_predecessor :
    (execute_proactive_messaging_update
        { proactive := { current_task_id := some "T_old" } } "T_new" false).revoked
      = [] ∧
    (execute_proactive_messaging_update
        { proactive := { current_task_id := some "T_old" } } "T_new" false).doc
      = { proactive := { current_task_id := some "T_new" } } := by
  constructor <;> rfl

/-- **C2** — whenever the ledger write step raises (on any document with no
stray top-level `"current_task_id"` key, i.e. every document this codebase
itself produces, since all its writes are nested under
`proactive_messaging`): the newly enqueued task id is revoked, the
document — in particular `proactive_messaging.current_task_id` — is
unchanged, the failure propagates to the caller, and exactly one task is
cleaned up. -/
theorem execute_update_write_failure_cleanup (doc : BotDoc) (newTaskId : String)
    (htop : doc.top_current_task_id = none) :
    (execute_proactive_messaging_update doc newTaskId true).revoked = [newTaskId] ∧
    (execute_proactive_messaging_update doc newTaskId true).doc = doc ∧
    (execute_proactive_messaging_update doc newTaskId true).raised = true ∧
    ((execute_proactive_messaging_update doc newTaskId true).revoked).length = 1 := by
  refine ⟨?_, rfl, rfl, ?_⟩ <;>
    simp [execute_proactive_messaging_update, revoke_existing_tasks, htop]

/-- Witness for C2: a document whose ledger holds predecessor `"T_old"`,
write step raising, new task `"T_new"`. -/
theorem execute_update_write_failure_cleanup_witness :
    (execute_proactive_messaging_update
        { proactive := { current_task_id := some "T_old" } } "T_new" true).revoked
      = ["T_new"] ∧
    (execute_proactive_messaging_update
        { proactive := { current_task_id := some "T_old" } } "T_new" true).doc
      = { proactive := { current_task_id := some "T_old" } } ∧
    (execute_proactive_messaging_update
        { proactive := { current_task_id := some "T_old" } } "T_new" true).raised
      = true ∧
    ((execute_proactive_messaging_update
        { proactive := { current_task_id := some "T_old" } } "T_new" true).revoked).length
      = 1 :=
  execute_update_write_failure_cleanup
    { proactive := { current_task_id := some "T_old" } } "T_new" rfl

/-! ## `datetime.isoformat` and `datetime.fromisoformat` -/

/-- The ASCII digit character for `n < 10`. -/
def digitOf (n : Nat) : Char := Char.ofNat (48 + n)

/-- Two-digit zero-padded decimal rendering (`"%02d"`), for `n < 100`. -/
def pad2 (n : Nat) : List Char := [digitOf (n / 10), digitOf (n % 10)]

/-- Four-digit zero-padded decimal rendering (`"%04d"`), for `n < 10000`. -/
def pad4 (n : Nat) : List Char :=
  [digitOf (n / 1000), digitOf (n / 100 % 10), digitOf (n / 10 % 10),
   digitOf (n % 10)]

/-- Six-digit zero-padded decimal rendering (`"%06d"`), for `n < 1000000`. -/
def pad6 (n : Nat) : List Char :=
  [digitOf (n / 100000), digitOf (n / 10000 % 10), digitOf (n / 1000 % 10),
   digitOf (n / 100 % 10), digitOf (n / 10 % 10), digitOf (n % 10)]

/-- CPython `datetime.isoformat()` on an aware datetime with a
whole-minute UTC offset: `YYYY-MM-DDTHH:MM:SS`, then `.ffffff` only when
`microsecond` is nonzero, then the offset as `+HH:MM` or `-HH:MM`. -/
def isoformatChars (d : PyDateTime) : List Char :=
  pad4 d.year ++ '-' :: pad2 d.month ++ '-' :: pad2 d.day ++
    'T' :: pad2 d.hour ++ ':' :: pad2 d.minute ++ ':' :: pad2 d.second ++
    (if d.microsecond = 0 then [] else '.' :: pad6 d.microsecond) ++
    (if d.offsetMinutes < 0 then '-' else '+') ::
      pad2 (d.offsetMinutes.natAbs / 60) ++ ':' :: pad2 (d.offsetMinutes.natAbs % 60)

/-- `eta.isoformat()` as the Python code uses it, as a `String`. -/
def isoformat (d : PyDateTime) : String := ⟨isoformatChars d⟩

/-- The numeric value of an ASCII digit character; `none` on a non-digit
(where CPython's parser raises). -/
def digitVal (c : Char) : Option Nat :=
  if c.isDigit then some (c.toNat - 48) else none

/-- Parse exactly two digit characters as a decimal number. -/
def parse2 (a b : Char) : Option Nat :=
  match digitVal a, digitVal b with
  | some x, some y => some (10 * x + y)
  | _, _ => none

/-- Parse exactly four digit characters as a decimal number. -/
def parse4 (a b c d : Char) : Option Nat :=
  match parse2 a b, parse2 c d with
  | some x, some y => some (100 * x + y)
  | _, _ => none

/-- Parse exactly six digit characters as a decimal number. -/
def parse6 (a b c d e f : Char) : Option Nat :=
  match parse2 a b, parse2 c d, parse2 e f with
  | some x, some y, some z => some (10000 * x + 100 * y + z)
  | _, _, _ => none

/-- The optional fractional-seconds part: a `'.'` followed by six digits
(the shape `isoformat` emits when `microsecond ≠ 0`); anything not starting
with `'.'` means `microsecond = 0` and is left for the offset parser. -/
def parseFraction (l : List Char) : Option (Nat × List Char) :=
  if l.head? = some '.' then
    match l with
    | _ :: f1 :: f2 :: f3 :: f4 :: f5 :: f6 :: rest =>
        (parse6 f1 f2 f3 f4 f5 f6).map (fun us => (us, rest))
    | _ => none
  else some (0, l)

/-- The trailing UTC offset `±HH:MM`; the resulting offset must be smaller
than 24 hours in absolute value (CPython's `timezone` constructor raises
otherwise). -/
def parseOffset : List Char → Option Int
  | '+' :: h1 :: h2 :: ':' :: m1 :: m2 :: [] =>
      match parse2 h1 h2, parse2 m1 m2 with
      | some h, some m =>
          if h * 60 + m ≤ 1439 then some ((h * 60 + m : Nat) : Int) else none
      | _, _ => none
  | '-' :: h1 :: h2 :: ':' :: m1 :: m2 :: [] =>
      match parse2 h1 h2, parse2 m1 m2 with
      | some h, some m =>
          if h * 60 + m ≤ 1439 then some (-((h * 60 + m : Nat) : Int)) else none
      | _, _ => none
  | _ => none

/-- CPython `datetime.fromisoformat` restricted to the grammar that
`isoformat` itself emits for aware datetimes (which is all the validator
ever receives from this codebase): `YYYY-MM-DDTHH:MM:SS[.ffffff]±HH:MM`.
Field ranges are validated as the `datetime` constructor does; any
deviation yields `none` (CPython raises `ValueError`). -/
def fromisoformatChars : List Char → Option PyDateTime
  | y1 :: y2 :: y3 :: y4 :: '-' :: mo1 :: mo2 :: '-' :: d1 :: d2 :: 'T' ::
      h1 :: h2 :: ':' :: mi1 :: mi2 :: ':' :: s1 :: s2 :: rest => do
    let y ← parse4 y1 y2 y3 y4
    let mo ← parse2 mo1 mo2
    let dd ← parse2 d1 d2
    let h ← parse2 h1 h2
    let mi ← parse2 mi1 mi2
    let s ← parse2 s1 s2
    let (us, rest2) ← parseFraction rest
    let off ← parseOffset rest2
    let dt : PyDateTime := ⟨y, mo, dd, h, mi, s, us, off⟩
    if dt.valid then pure dt else none
  | _ => none

/-- `datetime.fromisoformat` on a `String`. -/
def fromisoformat (s : String) : Option PyDateTime := fromisoformatChars s.data

/-- `parse_last_scheduled` (the `pre=True` validator of
`ProactiveMessagingSettings`): a string input is parsed with
`datetime.fromisoformat`; any other value is passed through unchanged. -/
inductive LastScheduledInput
  | str (s : String)
  | dt (d : PyDateTime)
  | null

def parse_last_scheduled : LastScheduledInput → Option (Option PyDateTime)
  | .str s => (fromisoformat s).map some
  | .dt d => some (some d)
  | .null => some none

/-! ## The ledger write and cancellation -/

/-- `update_task_in_firestore` (identical in
`event_handlers/proactive_event_handler.py` and
`celery_tasks/proactive_messaging_task.py`): builds `update_data` and
issues one `bot_ref.update(update_data)` call.  With a task id: set
`proactive_messaging.current_task_id`, and — only `if eta:` — set
`proactive_messaging.last_scheduled` to `eta.isoformat()` (a `datetime` is
always truthy, so this is `eta is not None`).  With `task_id = None`: map
both fields to `firestore.DELETE_FIELD`. -/
def update_task_in_firestore (task_id : Option String) (eta : Option PyDateTime) :
    List (String × FieldUpdate) :=
  match task_id with
  | some t =>
      ("proactive_messaging.current_task_id", .setVal t) ::
        (match eta with
         | some e => [("proactive_messaging.last_scheduled", .setVal (isoformat e))]
         | none => [])
  | none =>
      [("proactive_messaging.current_task_id", .deleteField),
       ("proactive_messaging.last_scheduled", .deleteField)]

/-- Apply one `update_data` entry to the nested `proactive_messaging` map:
setting stores the value, `DELETE_FIELD` removes the field. -/
def applyFieldUpdate (p : ProactiveFields) (u : String × FieldUpdate) :
    ProactiveFields :=
  if u.1 = "proactive_messaging.current_task_id" then
    match u.2 with
    | .setVal v => { p with current_task_id := some v }
    | .deleteField => { p with current_task_id := none }
  else if u.1 = "proactive_messaging.last_scheduled" then
    match u.2 with
    | .setVal v => { p with last_scheduled := some v }
    | .deleteField => { p with last_scheduled := none }
  else p

/-- `bot_ref.update(update_data)`: apply all entries to the document. -/
def applyUpdates (doc : BotDoc) (us : List (String × FieldUpdate)) : BotDoc :=
  { doc with proactive := us.foldl applyFieldUpdate doc.proactive }

/-- `get_current_task_id`: `bot_doc.to_dict().get("proactive_messaging", {}).get("current_task_id")`
— the *nested* ledger field (the document is assumed to exist, as in every
scenario the claims quantify over). -/
def get_current_task_id (doc : BotDoc) : Option String :=
  doc.proactive.current_task_id

/-- Observable result of one `cancel_current_proactive_message_task` call. -/
structure CancelRun where
  doc : BotDoc
  revoked : List String
  ledgerWrites : Nat
deriving DecidableEq, Repr

/-- `cancel_current_proactive_message_task` (identical logic in both
variants): read the current task id; `if current_task_id:` (truthiness —
`None` and `""` are skipped) then `celery_app.control.revoke` it and call
`update_task_in_firestore(db, bot, None, None)`, which deletes both ledger
fields; otherwise do nothing. -/
def cancel_current_proactive_message_task (doc : BotDoc) : CancelRun :=
  match get_current_task_id doc with
  | some current_task_id =>
      if current_task_id = "" then
        { doc := doc, revoked := [], ledgerWrites := 0 }
      else
        { doc := applyUpdates doc (update_task_in_firestore none none)
          revoked := [current_task_id]
          ledgerWrites := 1 }
  | none => { doc := doc, revoked := [], ledgerWrites := 0 }

/-- **C7, counterexample** — called with a non-null task id `"t1"` and a
null eta, the single update sets only
`proactive_messaging.current_task_id`; no entry for
`proactive_messaging.last_scheduled` is part of the update, contradicting
the claim that both fields are set whenever `task_id` is non-null. -/
theorem update_task_in_firestore_skips_eta_when_none :
    update_task_in_firestore (some "t1") none
      = [("proactive_messaging.current_task_id", .setVal "t1")] ∧
    ∀ u ∈ update_task_in_firestore (some "t1") none,
      u.1 ≠ "proactive_messaging.last_scheduled" := by
  refine ⟨rfl, ?_⟩
  intro u hu
  simp only [update_task_in_firestore, List.mem_singleton] at hu
  subst hu
  decide

/-- **C7, amended** — the single `bot_ref.update` call contains: with
`task_id = None`, exactly the two ledger fields mapped to the
`DELETE_FIELD` sentinel (removed entirely, not set to null); with a
non-null task id and a non-null eta, both fields set (the eta as its ISO
string); with a non-null task id and a null eta, only `current_task_id`
set. -/
theorem update_task_in_firestore_spec :
    (update_task_in_firestore none none
      = [("proactive_messaging.current_task_id", .deleteField),
         ("proactive_messaging.last_scheduled", .deleteField)]) ∧
    (∀ t e, update_task_in_firestore (some t) (some e)
      = [("proactive_messaging.current_task_id", .setVal t),
         ("proactive_messaging.last_scheduled", .setVal (isoformat e))]) ∧
    (∀ t, update_task_in_firestore (some t) none
      = [("proactive_messaging.current_task_id", .setVal t)]) := by
  refine ⟨rfl, fun t e => rfl, fun t => rfl⟩

/-- **C8** — on any bot document whose stored task id is a genuine
(non-empty) queue-issued id, cancelling twice leaves
`proactive_messaging.current_task_id` null after each call, and the second
call issues no revoke call and no ledger write. -/
theorem cancel_twice_idempotent (doc : BotDoc)
    (h : get_current_task_id doc ≠ some "") :
    (cancel_current_proactive_message_task doc).doc.proactive.current_task_id
        = none ∧
    ((cancel_current_proactive_message_task
        (cancel_current_proactive_message_task doc).doc).doc.proactive.current_task_id
        = none) ∧
    (cancel_current_proactive_message_task
        (cancel_current_proactive_message_task doc).doc).revoked = [] ∧
    (cancel_current_proactive_message_task
        (cancel_current_proactive_message_task doc).doc).ledgerWrites = 0 := by
  cases hc : doc.proactive.current_task_id with
  | none =>
      simp [cancel_current_proactive_message_task, get_current_task_id, hc]
  | some t =>
      have ht : t ≠ "" := by
        intro he
        exact h (by simp [get_current_task_id, hc, he])
      simp [cancel_current_proactive_message_task, get_current_task_id, hc, ht,
        applyUpdates, update_task_in_firestore, applyFieldUpdate]

/-- Witness for C8: a document with a live task `"tid-1"` and a stored
schedule time. -/
theorem cancel_twice_idempotent_witness :
    (cancel_current_proactive_message_task
        { proactive := { current_task_id := some "tid-1",
                         last_scheduled := some "2024-01-02T03:04:05+00:00" } }).doc.proactive.current_task_id
        = none ∧
    ((cancel_current_proactive_message_task
        (cancel_current_proactive_message_task
          { proactive := { current_task_id := some "tid-1",
                           last_scheduled := some "2024-01-02T03:04:05+00:00" } }).doc).doc.proactive.current_task_id
        = none) ∧
    (cancel_current_proactive_message_task
        (cancel_current_proactive_message_task
          { proactive := { current_task_id := some "tid-1",
                           last_scheduled := some "2024-01-02T03:04:05+00:00" } }).doc).revoked = [] ∧
    (cancel_current_proactive_message_task
        (cancel_current_proactive_message_task
          { proactive := { current_task_id := some "tid-1",
                           last_scheduled := some "2024-01-02T03:04:05+00:00" } }).doc).ledgerWrites = 0 :=
  cancel_twice_idempotent
    { proactive := { current_task_id := some "tid-1",
                     last_scheduled := some "2024-01-02T03:04:05+00:00" } }
    (by simp [get_current_task_id])

/-- How the body of the worker task `schedule_proactive_message`
(`celery_tasks/proactive_messaging_task.py`; the variant in
`event_handlers/proactive_event_handler.py` has the same shape) can go:
the message-generation call succeeds and the post succeeds, the generation
raises (so no post is attempted), or the post raises. -/
inductive SendOutcome
  | ok
  | genRaises
  | postRaises
deriving DecidableEq, Repr

/-- `generate_and_send_proactive_message_sync`
(`utils/proactive_messaging_utils.py`): generate a message, then
`client.chat_postMessage(...)`.  Returns (number of `post_message` calls
made, whether the call raised). -/
def generate_and_send_proactive_message_sync : SendOutcome → Nat × Bool
  | .ok => (1, false)
  | .genRaises => (0, true)
  | .postRaises => (1, true)

/-- Observable effects of one firing of the worker task. -/
structure WorkerRun where
  postCalls : Nat
  /-- invocations of `schedule_proactive_message_task`, the step that
  re-arms the next occurrence (enqueue + ledger write). -/
  scheduleInvocations : Nat
  raised : Bool
deriving DecidableEq, Repr

/-- The worker task body `schedule_proactive_message`
(`celery_tasks/proactive_messaging_task.py`): refresh config from
Firestore, call `generate_and_send_proactive_message_sync`, then call
`schedule_proactive_message_task`.  The calls are sequential with no
`try`/`except`/`finally`: an exception from the send step propagates and
the re-arming call is never reached. -/
def schedule_proactive_message (outcome : SendOutcome) : WorkerRun :=
  let (posts, sendRaised) := generate_and_send_proactive_message_sync outcome
  if sendRaised then
    { postCalls := posts, scheduleInvocations := 0, raised := true }
  else
    { postCalls := posts, scheduleInvocations := 1, raised := false }

/-- **C3, counterexample** — when the message-generation step raises, the
worker makes zero `post_message` calls and zero subsequent
scheduling-transaction invocations, contradicting the claim's "exactly one
... even when the message-generation or post_message step raises". -/
theorem schedule_proactive_message_gen_failure_breaks_chain :
    (schedule_proactive_message .genRaises).postCalls = 0 ∧
    (schedule_proactive_message .genRaises).scheduleInvocations = 0 := by
  constructor <;> rfl

/-- **C3, amended** — when generation and posting succeed the worker makes
exactly one `post_message` call and exactly one re-arming invocation; when
either raises, the error propagates and *no* re-arming invocation is made
(with one post call if the post itself raised, zero if generation raised
first). -/
theorem schedule_proactive_message_cases :
    (schedule_proactive_message .ok).postCalls = 1 ∧
    (schedule_proactive_message .ok).scheduleInvocations = 1 ∧
    (schedule_proactive_message .ok).raised = false ∧
    (∀ o : SendOutcome, o ≠ .ok →
      (schedule_proactive_message o).scheduleInvocations = 0 ∧
      (schedule_proactive_message o).raised = true) ∧
    (schedule_proactive_message .postRaises).postCalls = 1 ∧
    (schedule_proactive_message .genRaises).postCalls = 0 := by
  refine ⟨rfl, rfl, rfl, ?_, rfl, rfl⟩
  intro o ho
  cases o with
  | ok => exact absurd rfl ho
  | genRaises => exact ⟨rfl, rfl⟩
  | postRaises => exact ⟨rfl, rfl⟩

/-- **C9, amended** — validation of a settings record with `enabled = true`
fails exactly when one of `interval_days`, `system_prompt`, `slack_channel`
is absent (`None`); positivity of `interval_days` is *not* checked, so zero
or negative intervals pass. -/
theorem check_required_fields_ok_iff (s : ProactiveMessagingSettings) :
    check_required_fields s = .ok s ↔
      (s.enabled = true →
        s.interval_days ≠ none ∧ s.system_prompt ≠ none ∧
        s.slack_channel ≠ none) := by
  unfold check_required_fields
  by_cases he : s.enabled <;>
    by_cases h1 : s.interval_days = none <;>
      by_cases h2 : s.system_prompt = none <;>
        by_cases h3 : s.slack_channel = none <;>
          simp [he, h1, h2, h3]

/-! ## Round-trip of `fromisoformat` over `isoformat` (C10) -/

theorem digitVal_digitOf (n : Nat) (h : n < 10) :
    digitVal (digitOf n) = some n := by
  interval_cases n <;> decide

theorem parse2_pad (n : Nat) (h : n < 100) :
    parse2 (digitOf (n / 10)) (digitOf (n % 10)) = some n := by
  have h1 := digitVal_digitOf (n / 10) (by omega)
  have h2 := digitVal_digitOf (n % 10) (by omega)
  simp only [parse2, h1, h2, Option.some.injEq]
  omega

theorem parse4_pad (n : Nat) (h : n < 10000) :
    parse4 (digitOf (n / 1000)) (digitOf (n / 100 % 10)) (digitOf (n / 10 % 10))
      (digitOf (n % 10)) = some n := by
  have e1 : n / 1000 = n / 100 / 10 := by omega
  have h1 : parse2 (digitOf (n / 100 / 10)) (digitOf (n / 100 % 10))
      = some (n / 100) := parse2_pad (n / 100) (by omega)
  have h2 : parse2 (digitOf (n % 100 / 10)) (digitOf (n % 100 % 10))
      = some (n % 100) := parse2_pad (n % 100) (by omega)
  have e3 : n / 10 % 10 = n % 100 / 10 := by omega
  have e4 : n % 10 = n % 100 % 10 := by omega
  rw [e1, e3, e4]
  simp only [parse4, h1, h2, Option.some.injEq]
  omega

theorem parse6_pad (n : Nat) (h : n < 1000000) :
    parse6 (digitOf (n / 100000)) (digitOf (n / 10000 % 10))
      (digitOf (n / 1000 % 10)) (digitOf (n / 100 % 10)) (digitOf (n / 10 % 10))
      (digitOf (n % 10)) = some n := by
  have e1 : n / 100000 = n / 10000 / 10 := by omega
  have e3 : n / 1000 % 10 = n / 100 % 100 / 10 := by omega
  have e4 : n / 100 % 10 = n / 100 % 100 % 10 := by omega
  have e5 : n / 10 % 10 = n % 100 / 10 := by omega
  have e6 : n % 10 = n % 100 % 10 := by omega
  have h1 : parse2 (digitOf (n / 10000 / 10)) (digitOf (n / 10000 % 10))
      = some (n / 10000) := parse2_pad (n / 10000) (by omega)
  have h2 : parse2 (digitOf (n / 100 % 100 / 10)) (digitOf (n / 100 % 100 % 10))
      = some (n / 100 % 100) := parse2_pad (n / 100 % 100) (by omega)
  have h3 : parse2 (digitOf (n % 100 / 10)) (digitOf (n % 100 % 10))
      = some (n % 100) := parse2_pad (n % 100) (by omega)
  rw [e1, e3, e4, e5, e6]
  simp only [parse6, h1, h2, h3, Option.some.injEq]
  omega

/-- The printer/parser inversion at the level of character lists. -/
theorem fromisoformatChars_isoformatChars (d : PyDateTime) (h : d.valid) :
    fromisoformatChars (isoformatChars d) = some d := by
  obtain ⟨y, mo, dd, hh, mi, ss, us, off⟩ := d
  simp only [PyDateTime.valid] at h
  obtain ⟨h1, h2, h3, h4, h5, h6, h7, h8, h9, h10, h11⟩ := h
  have py := parse4_pad y (by omega)
  have pmo := parse2_pad mo (by omega)
  have pdd := parse2_pad dd (by omega)
  have phh := parse2_pad hh (by omega)
  have pmi := parse2_pad mi (by omega)
  have pss := parse2_pad ss (by omega)
  have pus := parse6_pad us (by omega)
  have poh := parse2_pad (off.natAbs / 60) (by omega)
  have pom : parse2 (digitOf (off.natAbs % 60 / 10)) (digitOf (off.natAbs % 10))
      = some (off.natAbs % 60) := by
    have e : off.natAbs % 10 = off.natAbs % 60 % 10 := by omega
    rw [e]; exact parse2_pad (off.natAbs % 60) (by omega)
  have hsum : off.natAbs / 60 * 60 + off.natAbs % 60 = off.natAbs := by omega
  have hvneg : -((off.natAbs % 60 : Nat) : Int) + -(((off.natAbs / 60 : Nat) : Int) * 60)
      = -((off.natAbs : Nat) : Int) := by omega
  have hvpos : (((off.natAbs / 60 : Nat) : Int)) * 60 + ((off.natAbs % 60 : Nat) : Int)
      = ((off.natAbs : Nat) : Int) := by omega
  by_cases hus : us = 0 <;> by_cases hneg : off < 0
  · subst hus
    have hoffE : -((off.natAbs : Nat) : Int) = off := by omega
    simp +decide [isoformatChars, fromisoformatChars, pad4, pad2, pad6,
      parseFraction, parseOffset, PyDateTime.valid,
      py, pmo, pdd, phh, pmi, pss, poh, pom, hsum, hvneg, hoffE, hneg,
      h1, h2, h3, h4, h5, h6, h7, h8, h9, h10, h11]
    try simp only [Int.abs_eq_natAbs]
    omega
  · subst hus
    have hoffE : ((off.natAbs : Nat) : Int) = off := by omega
    simp +decide [isoformatChars, fromisoformatChars, pad4, pad2, pad6,
      parseFraction, parseOffset, PyDateTime.valid,
      py, pmo, pdd, phh, pmi, pss, poh, pom, hsum, hvpos, hoffE, hneg,
      h1, h2, h3, h4, h5, h6, h7, h8, h9, h10, h11]
    try simp only [Int.abs_eq_natAbs]
    omega
  · have hoffE : -((off.natAbs : Nat) : Int) = off := by omega
    simp +decide [isoformatChars, fromisoformatChars, pad4, pad2, pad6,
      parseFraction, parseOffset, PyDateTime.valid,
      py, pmo, pdd, phh, pmi, pss, pus, poh, pom, hsum, hvneg, hoffE, hus, hneg,
      h1, h2, h3, h4, h5, h6, h7, h8, h9, h10, h11]
    try simp only [Int.abs_eq_natAbs]
    omega
  · have hoffE : ((off.natAbs : Nat) : Int) = off := by omega
    simp +decide [isoformatChars, fromisoformatChars, pad4, pad2, pad6,
      parseFraction, parseOffset, PyDateTime.valid,
      py, pmo, pdd, phh, pmi, pss, pus, poh, pom, hsum, hvpos, hoffE, hus, hneg,
      h1, h2, h3, h4, h5, h6, h7, h8, h9, h10, h11]
    try simp only [Int.abs_eq_natAbs]
    omega

/-- **C10** — for every (valid, timezone-aware) datetime `eta`, storing it
as the string `eta.isoformat()` (as the ledger write does) and then feeding
that string to the `last_scheduled` pre-validator yields exactly the
original `eta`: `datetime.fromisoformat` inverts `datetime.isoformat`. -/
theorem parse_last_scheduled_roundtrip (d : PyDateTime) (h : d.valid) :
    parse_last_scheduled (.str (isoformat d)) = some (some d) := by
  have hc := fromisoformatChars_isoformatChars d h
  simp [parse_last_scheduled, fromisoformat, isoformat, hc]

/-- Witness for C10 at a concrete aware datetime (UTC offset 0, nonzero
microseconds, as `datetime.now(pytz.utc) + timedelta(...)` produces). -/
theorem parse_last_scheduled_roundtrip_witness :
    parse_last_scheduled (.str (isoformat ⟨2024, 1, 2, 3, 4, 5, 123456, 0⟩))
      = some (some ⟨2024, 1, 2, 3, 4, 5, 123456, 0⟩) :=
  parse_last_scheduled_roundtrip ⟨2024, 1, 2, 3, 4, 5, 123456, 0⟩ (by decide)

end Buppy
